import Mathlib

/-!
Verification of the HealthTech conversational-triage pipeline.

The definitions below are a shallow embedding of the Python source:
  * `ai_service/risk_detector.py`   (keyword lists, regex patterns, `detect_risk`,
    `check_for_crisis`)
  * `ai_service/emotion_classifier.py` (`classify_emotion`, `_fallback_classify`)
  * `ai_service/sentiment_analyzer.py` (`analyze_sentiment`, `_fallback_analyze`)
  * `ai_service/llm_companion.py`   (`generate_response`, `_generate_mock_response`)
  * `backend/app/api/risk.py`       (trend computation in `get_risk_scores`)
  * `backend/app/api/chat.py`       (`send_message` pipeline and alert creation)

Numbers: every contribution to the risk score in the source is an integer
(85, 55, 25, +15, +12, +8, +5, -10, +10, +5), so the base score is modelled
as `ℤ`; Python's `round(x, 1)` is the identity on such integral values and
therefore not modelled as a separate step.  Sentiment values are compared
against -0.6 / -0.3 and are modelled as `ℚ`.

External ML/LLM backends are modelled as explicit `Option` parameters:
`none` is the fallback/mock path (backend unavailable or the call raised),
`some r` is a successful backend call returning `r`.
-/

namespace Helthtech

/-- ASCII whitespace, the characters stripped by Python `str.strip()` and
matched by the regex class so far as the embedded texts are concerned. -/
def isWs (c : Char) : Bool :=
  c = ' ' || c = '\t' || c = '\n' || c = '\x0b' || c = '\x0c' || c = '\r'

/-- Python `str.lower()` on a list of characters (ASCII case mapping). -/
def lowerChars (l : List Char) : List Char := l.map Char.toLower

/-- Python `str.strip()`: drop leading and trailing whitespace. -/
def pyStrip (l : List Char) : List Char :=
  ((l.dropWhile isWs).reverse.dropWhile isWs).reverse

/-- Python's substring test `p in s` on character lists. -/
def containsSub (p : List Char) : List Char → Bool
  | [] => p.isPrefixOf []
  | c :: cs => p.isPrefixOf (c :: cs) || containsSub p cs

/-! ### A miniature regex engine

Only the constructs actually used by `MEDIUM_RISK_PATTERNS` and
`LOW_RISK_PATTERNS` in `risk_detector.py` are modelled: literal strings,
concatenation, alternation `(?:a|b|...)`, the option `(?:...)?` / `'?`,
`\s+` and `\s*`.  `matchRx r s` enumerates every suffix of `s` left over
after matching `r` against some prefix of `s`; `rxSearch` is Python
`re.search` viewed as a boolean. -/

inductive Rx : Type where
  | fail : Rx
  | lit : List Char → Rx
  | ws1 : Rx
  | ws0 : Rx
  | cat : Rx → Rx → Rx
  | alt : Rx → Rx → Rx
  | opt : Rx → Rx
deriving Repr

/-- Suffixes obtainable by consuming one or more leading whitespace chars. -/
def wsSuffixes : List Char → List (List Char)
  | [] => []
  | c :: cs => if isWs c then cs :: wsSuffixes cs else []

/-- All suffixes of `s` left after matching `r` against a prefix of `s`. -/
def matchRx : Rx → List Char → List (List Char)
  | .fail, _ => []
  | .lit p, s => if p.isPrefixOf s then [s.drop p.length] else []
  | .ws1, s => wsSuffixes s
  | .ws0, s => s :: wsSuffixes s
  | .cat r1 r2, s => (matchRx r1 s).flatMap (matchRx r2)
  | .alt r1 r2, s => matchRx r1 s ++ matchRx r2 s
  | .opt r, s => s :: matchRx r s

/-- Python `re.search(r, s) is not None`: `r` matches at some position. -/
def rxSearch (r : Rx) : List Char → Bool
  | [] => !(matchRx r []).isEmpty
  | c :: cs => !(matchRx r (c :: cs)).isEmpty || rxSearch r (c :: cs).tail

/-- Alternation over a list of literal words, i.e. `(?:w1|w2|...)`. -/
def oneOfW (l : List String) : Rx :=
  l.foldr (fun w r => .alt (.lit w.data) r) .fail

/-- Literal-string regex. -/
def rlit (w : String) : Rx := .lit w.data

/-- `hasNonWsLit r` says every string matched by `r` must contain a
non-whitespace character: some literal with a non-whitespace character is
unavoidable.  (`opt` can always match the empty string, hence `false`.) -/
def hasNonWsLit : Rx → Bool
  | .fail => true
  | .lit p => p.any (fun c => !isWs c)
  | .ws1 => false
  | .ws0 => false
  | .cat r1 r2 => hasNonWsLit r1 || hasNonWsLit r2
  | .alt r1 r2 => hasNonWsLit r1 && hasNonWsLit r2
  | .opt _ => false

/-! ### `ai_service/risk_detector.py` -/

/-- `HIGH_RISK_KEYWORDS` (risk_detector.py lines 10-26). -/
def HIGH_RISK_KEYWORDS : List String :=
  [ "kill myself",
    "want to die",
    "hurt myself",
    "end my life",
    "suicide",
    "self harm",
    "self-harm",
    "cut myself",
    "don\x27t want to live",
    "don\x27t want to be alive",
    "better off dead",
    "no reason to live",
    "end it all",
    "take my own life",
    "overdose" ]

/-- `MEDIUM_RISK_PATTERNS` (risk_detector.py lines 29-39), written in the
mini regex syntax.  Each entry is the direct translation of one raw-string
pattern of the source, in order. -/
def MEDIUM_RISK_PATTERNS : List Rx :=
  [ -- r"feel(?:ing)?\s+(?:so\s+)?(?:hopeless|worthless|empty|numb)"
    .cat (rlit "feel") (.cat (.opt (rlit "ing")) (.cat .ws1
      (.cat (.opt (.cat (rlit "so") .ws1))
        (oneOfW ["hopeless", "worthless", "empty", "numb"])))),
    -- r"(?:nobody|no\s*one)\s+(?:cares|loves|understands)"
    .cat (.alt (rlit "nobody") (.cat (rlit "no") (.cat .ws0 (rlit "one"))))
      (.cat .ws1 (oneOfW ["cares", "loves", "understands"])),
    -- r"can'?t\s+(?:go on|take it|handle|cope)"
    .cat (rlit "can") (.cat (.opt (rlit "\x27")) (.cat (rlit "t")
      (.cat .ws1 (oneOfW ["go on", "take it", "handle", "cope"])))),
    -- r"(?:hate|despise)\s+myself"
    .cat (oneOfW ["hate", "despise"]) (.cat .ws1 (rlit "myself")),
    -- r"(?:always|constantly)\s+(?:sad|depressed|anxious)"
    .cat (oneOfW ["always", "constantly"])
      (.cat .ws1 (oneOfW ["sad", "depressed", "anxious"])),
    -- r"(?:nothing|life)\s+(?:matters|has meaning)"
    .cat (oneOfW ["nothing", "life"])
      (.cat .ws1 (oneOfW ["matters", "has meaning"])),
    -- r"(?:trapped|stuck)\s+(?:in|with)"
    .cat (oneOfW ["trapped", "stuck"]) (.cat .ws1 (oneOfW ["in", "with"])),
    -- r"(?:never|won't)\s+get\s+better"
    .cat (oneOfW ["never", "won\x27t"])
      (.cat .ws1 (.cat (rlit "get") (.cat .ws1 (rlit "better")))),
    -- r"burden\s+(?:to|on)\s+(?:everyone|others|family)"
    .cat (rlit "burden") (.cat .ws1 (.cat (oneOfW ["to", "on"])
      (.cat .ws1 (oneOfW ["everyone", "others", "family"])))) ]

/-- `LOW_RISK_PATTERNS` (risk_detector.py lines 42-48). -/
def LOW_RISK_PATTERNS : List Rx :=
  [ -- r"(?:stressed|overwhelmed|exhausted)"
    oneOfW ["stressed", "overwhelmed", "exhausted"],
    -- r"(?:can'?t|unable\s+to)\s+sleep"
    .cat (.alt (.cat (rlit "can") (.cat (.opt (rlit "\x27")) (rlit "t")))
        (.cat (rlit "unable") (.cat .ws1 (rlit "to"))))
      (.cat .ws1 (rlit "sleep")),
    -- r"(?:lonely|isolated|alone)"
    oneOfW ["lonely", "isolated", "alone"],
    -- r"(?:worried|anxious)\s+about"
    .cat (oneOfW ["worried", "anxious"]) (.cat .ws1 (rlit "about")),
    -- r"feeling\s+(?:down|low|blue)"
    .cat (rlit "feeling") (.cat .ws1 (oneOfW ["down", "low", "blue"])) ]

/-- Shape of the HIGH- and MEDIUM-risk loops of `detect_risk`: walk the
list, and for each element whose check fires append a factor string and
raise the score to at least `v` (`base_score = max(base_score, v)`). -/
def scanMax {α : Type} (cond : α → Bool) (fx : α → String) (v : ℤ)
    (init : List String × ℤ) (l : List α) : List String × ℤ :=
  l.foldl (fun acc x => if cond x then (acc.1 ++ [fx x], max acc.2 v) else acc) init

/-- The `emotion_adjustments` dict of `detect_risk` (lines 97-105), as the
association list it is written as; `.get(emotion, 0)` is `lookupAdj`. -/
def emotion_adjustments : List (String × ℤ) :=
  [ ("sadness", 15), ("fear", 12), ("anger", 8), ("disgust", 5),
    ("surprise", 0), ("neutral", 0), ("joy", -10) ]

/-- Python `emotion_adjustments.get(key, 0)`. -/
def lookupAdj (key : String) : ℤ :=
  ((emotion_adjustments.find? (fun p => p.1 = key)).map Prod.snd).getD 0

/-- Result type of `detect_risk`: the dict
`{"level": ..., "score": ..., "factors": ...}`. -/
structure RiskResult where
  level : String
  score : ℤ
  factors : List String
deriving Repr, DecidableEq

/-- `list(dict.fromkeys(factors))`: deduplicate keeping first occurrences. -/
def dedupKeepFirst (seen : List String) : List String → List String
  | [] => []
  | x :: xs =>
    if seen.contains x then dedupKeepFirst seen xs
    else x :: dedupKeepFirst (x :: seen) xs

/-- The HIGH-keyword loop of `detect_risk` (lines 75-78). -/
def highScan (tl : List Char) : List String × ℤ :=
  scanMax (fun kw => containsSub kw.data tl)
    (fun kw => "High-risk keyword detected: \x27" ++ kw ++ "\x27") 85 ([], 0)
    HIGH_RISK_KEYWORDS

/-- The MEDIUM-pattern loop of `detect_risk` (lines 81-85). -/
def mediumScan (tl : List Char) (acc : List String × ℤ) : List String × ℤ :=
  scanMax (fun p => rxSearch p tl) (fun _ => "Distress pattern detected") 55 acc
    MEDIUM_RISK_PATTERNS

/-- The LOW-pattern loop of `detect_risk` (lines 88-93): it `break`s after
the first matching pattern, raises a score below 40 to at least 25 and
appends exactly one factor. -/
def lowScan (tl : List Char) (acc : List String × ℤ) : List String × ℤ :=
  if LOW_RISK_PATTERNS.any (fun p => rxSearch p tl) then
    (acc.1 ++ ["Stress indicator detected"],
     if acc.2 < 40 then max acc.2 25 else acc.2)
  else acc

/-- The emotion adjustment of `detect_risk` (lines 96-110).  The Python
guard `if emotion:` skips `None` and the empty string. -/
def emotionStage (emotion : Option String) (acc : List String × ℤ) :
    List String × ℤ :=
  match emotion with
  | none => acc
  | some e =>
    if e = "" then acc
    else
      let adjustment := lookupAdj (String.mk (lowerChars e.data))
      if adjustment ≠ 0 then
        (if adjustment > 0 then acc.1 ++ ["Negative emotion detected: " ++ e]
         else acc.1,
         acc.2 + adjustment)
      else acc

/-- The sentiment adjustment of `detect_risk` (lines 113-119). -/
def sentimentStage (sentiment : Option ℚ) (acc : List String × ℤ) :
    List String × ℤ :=
  match sentiment with
  | none => acc
  | some s =>
    if s < -(6/10 : ℚ) then (acc.1 ++ ["Very negative sentiment"], acc.2 + 10)
    else if s < -(3/10 : ℚ) then (acc.1 ++ ["Negative sentiment"], acc.2 + 5)
    else acc

/-- The level thresholds of `detect_risk` (lines 125-130). -/
def levelOf (finalScore : ℤ) : String :=
  if finalScore ≥ 70 then "HIGH"
  else if finalScore ≥ 35 then "MEDIUM"
  else "LOW"

/-- `detect_risk` (risk_detector.py lines 51-139). -/
def detect_risk (text : String) (emotion : Option String := none)
    (sentiment : Option ℚ := none) : RiskResult :=
  if text = "" then { level := "LOW", score := 0, factors := [] }
  else
    let text_lower := lowerChars text.data
    let acc := sentimentStage sentiment (emotionStage emotion
      (lowScan text_lower (mediumScan text_lower (highScan text_lower))))
    let final_score := max 0 (min 100 acc.2)
    { level := levelOf final_score,
      score := final_score,
      factors := dedupKeepFirst [] acc.1 }

/-- The `crisis_indicators` list of `check_for_crisis` (lines 194-201). -/
def crisis_indicators : List String :=
  [ "kill myself",
    "suicide",
    "want to die",
    "going to hurt myself",
    "end my life",
    "overdose" ]

/-- `check_for_crisis` (risk_detector.py lines 187-204). -/
def check_for_crisis (text : String) : Bool :=
  crisis_indicators.any
    (fun indicator => containsSub indicator.data (lowerChars text.data))

/-! ### `ai_service/emotion_classifier.py` -/

/-- `round(x, n)` for a rational; Python rounds floats half-to-even, the
difference only shows at exact ties and is immaterial to every claim. -/
def pyRound (n : ℕ) (q : ℚ) : ℚ := (round (q * 10 ^ n) : ℤ) / 10 ^ n

structure EmotionResult where
  emotion : String
  confidence : ℚ
deriving Repr, DecidableEq

/-- The `emotion_keywords` dict of `_fallback_classify` (lines 76-83), in
its Python insertion/iteration order. -/
def emotion_keywords : List (String × List String) :=
  [ ("joy", ["happy", "glad", "excited", "wonderful", "great", "love",
             "amazing", "fantastic", "good"]),
    ("sadness", ["sad", "unhappy", "depressed", "down", "miserable",
                 "lonely", "hopeless", "crying", "tears"]),
    ("anger", ["angry", "mad", "furious", "annoyed", "frustrated", "hate",
               "pissed"]),
    ("fear", ["scared", "afraid", "terrified", "anxious", "worried",
              "nervous", "panic"]),
    ("surprise", ["surprised", "shocked", "amazed", "unexpected", "wow"]),
    ("disgust", ["disgusted", "gross", "sick", "revolting"]) ]

/-- `_fallback_classify` (emotion_classifier.py lines 71-89). -/
def fallback_classify (text : String) : EmotionResult :=
  let text_lower := lowerChars text.data
  match emotion_keywords.find?
      (fun ek => ek.2.any (fun kw => containsSub kw.data text_lower)) with
  | some ek => { emotion := ek.1, confidence := 6/10 }
  | none => { emotion := "neutral", confidence := 1/2 }

/-- `classify_emotion` (emotion_classifier.py lines 32-68).  `backend` is the
top label/score pair returned by the HuggingFace pipeline on a successful
call; `none` is the fallback path (model unavailable, or the call raised). -/
def classify_emotion (backend : Option (String × ℚ)) (text : String) :
    EmotionResult :=
  if text = "" || pyStrip text.data = [] then
    { emotion := "neutral", confidence := 0 }
  else
    match backend with
    | none => fallback_classify text
    | some (label, score) =>
      { emotion := String.mk (lowerChars label.data),
        confidence := pyRound 4 score }

/-! ### `ai_service/sentiment_analyzer.py` -/

structure SentimentResult where
  score : ℚ
  polarity : String
deriving Repr, DecidableEq

/-- `positive_words` of `_fallback_analyze` (lines 83-87). -/
def positive_words : List String :=
  [ "good", "great", "happy", "love", "wonderful", "amazing",
    "fantastic", "excellent", "best", "beautiful", "joy", "hope",
    "better", "improve", "grateful", "thanks", "helpful" ]

/-- `negative_words` of `_fallback_analyze` (lines 89-94). -/
def negative_words : List String :=
  [ "bad", "terrible", "sad", "hate", "awful", "horrible",
    "worst", "pain", "hurt", "lonely", "hopeless", "scared",
    "angry", "frustrated", "tired", "exhausted", "stressed",
    "anxious", "worried", "depressed", "miserable" ]

/-- `_fallback_analyze` (sentiment_analyzer.py lines 79-113). -/
def fallback_analyze (text : String) : SentimentResult :=
  let text_lower := lowerChars text.data
  let positive_count :=
    (positive_words.filter (fun w => containsSub w.data text_lower)).length
  let negative_count :=
    (negative_words.filter (fun w => containsSub w.data text_lower)).length
  let total := positive_count + negative_count
  if total = 0 then { score := 0, polarity := "neutral" }
  else
    let score : ℚ := ((positive_count : ℚ) - negative_count) / max total 1
    let polarity :=
      if score > 1/5 then "positive"
      else if score < -(1/5 : ℚ) then "negative"
      else "neutral"
    { score := pyRound 4 score, polarity := polarity }

/-- `analyze_sentiment` (sentiment_analyzer.py lines 29-76).  `backend` is
the label/confidence pair of a successful model call; `none` is the
fallback path. -/
def analyze_sentiment (backend : Option (String × ℚ)) (text : String) :
    SentimentResult :=
  if text = "" || pyStrip text.data = [] then
    { score := 0, polarity := "neutral" }
  else
    match backend with
    | none => fallback_analyze text
    | some (label, score) =>
      let upper := String.mk (label.data.map Char.toUpper)
      let sp : ℚ × String :=
        if upper = "POSITIVE" then (score, "positive")
        else (-score, "negative")
      let polarity := if |sp.1| < 3/10 then "neutral" else sp.2
      { score := pyRound 4 sp.1, polarity := polarity }

/-! ### `ai_service/llm_companion.py` -/

/-- `_generate_mock_response` (llm_companion.py lines 138-201). -/
def generate_mock_response (message : String) (emotion : Option String)
    (risk_level : Option String) : String :=
  let message_lower := lowerChars message.data
  if risk_level = some "HIGH" then
    "I hear that you\x27re going through something really painful right now. " ++
    "I want you to know that you\x27re not alone, and what you\x27re feeling matters. " ++
    "Would it be possible to talk to someone you trust about this? " ++
    "I\x27m here to listen, and I care about you."
  else if ["hi", "hello", "hey"].any
      (fun word => containsSub word.data message_lower) then
    "Hey! It\x27s good to hear from you. " ++
    "How are you feeling today? I\x27m here if you want to talk about anything."
  else if emotion = some "sadness" then
    "It sounds like you\x27re going through a tough time. " ++
    "I\x27m really sorry you\x27re feeling this way. " ++
    "Would you like to tell me more about what\x27s been going on?"
  else if emotion = some "fear" ∨ emotion = some "anxiety" then
    "That sounds really stressful. It\x27s completely understandable to feel worried. " ++
    "What\x27s been weighing on your mind the most?"
  else if emotion = some "anger" then
    "I can hear that you\x27re frustrated. Those feelings are valid. " ++
    "What happened that\x27s got you feeling this way?"
  else if emotion = some "joy" then
    "That\x27s wonderful to hear! It sounds like something good is happening. " ++
    "I\x27d love to hear more about it!"
  else if risk_level = some "MEDIUM" then
    "It sounds like things have been really hard lately. " ++
    "I want you to know that your feelings are valid, and it\x27s okay to not be okay sometimes. " ++
    "What would feel helpful to talk about right now?"
  else
    "I hear you. That sounds like something worth exploring. " ++
    "Would you like to tell me more about how you\x27re feeling?"

/-- `generate_response` (llm_companion.py lines 67-135).  `backend = none`
is the mock path (no API key, or the completion call raised — both return
`_generate_mock_response`); `backend = some content` is a successful call
whose reply text is `content`, returned as `content.strip()`.  The prompt
construction (system prompt, risk addendum, history truncation, emotion
annotation) only shapes the request and never the returned value, so
`emotion`, `risk_level` and `conversation_history` influence the result
only on the mock path. -/
def generate_response (backend : Option String) (message : String)
    (emotion : Option String := none) (risk_level : Option String := none)
    (conversation_history : List String := []) : String :=
  match backend with
  | none => generate_mock_response message emotion risk_level
  | some content => String.mk (pyStrip content.data)

/-! ### `backend/app/api/risk.py`: trend computation -/

/-- The trend computation of `get_risk_scores` (risk.py lines 39-51).
`scores` is the score column of the query result, most recent first. -/
def computeTrend (scores : List ℚ) : String :=
  if scores.length ≥ 5 then
    let recent_avg := (scores.take 5).sum / 5
    let older := (scores.drop 5).take 5
    let older_avg :=
      if scores.length > 5 then
        older.sum / ((min 5 older.length : ℕ) : ℚ)
      else recent_avg
    if recent_avg < older_avg - 5 then "improving"
    else if recent_avg > older_avg + 5 then "worsening"
    else "stable"
  else "insufficient_data"

/-! ### `backend/app/api/chat.py`: the pipeline orchestrator -/

/-- The fields of `AlertInDB` that `send_message` populates (chat.py
lines 123-128). -/
structure AlertInDB where
  user_id : String
  risk_level : String
  trigger_message : String
deriving Repr, DecidableEq

/-- The outcome of one `send_message` call (chat.py lines 45-142): the
analysis results returned in `ChatResponse`, plus the alert written to the
`alerts` collection (if any). -/
structure ChatOutcome where
  emotion : String
  emotion_confidence : ℚ
  sentiment_score : ℚ
  sentiment_polarity : String
  risk_level : String
  risk_score : ℤ
  risk_factors : List String
  ai_response : String
  alert : Option AlertInDB
deriving Repr

/-- `send_message` (chat.py lines 45-142) as a function of the three
backend states: emotion classification, sentiment analysis, risk
detection, response generation, then conditional alert creation for HIGH
risk. -/
def send_message (emoBackend sentBackend : Option (String × ℚ))
    (llmBackend : Option String) (user_id message : String) : ChatOutcome :=
  let emotion_result := classify_emotion emoBackend message
  let emotion := emotion_result.emotion
  let sentiment_result := analyze_sentiment sentBackend message
  let sentiment_score := sentiment_result.score
  let risk_result := detect_risk message (some emotion) (some sentiment_score)
  let risk_level := risk_result.level
  let ai_response := generate_response llmBackend message (some emotion)
    (some risk_level)
  let alert : Option AlertInDB :=
    if risk_level = "HIGH" then
      some { user_id := user_id, risk_level := risk_level,
             trigger_message := message }
    else none
  { emotion := emotion,
    emotion_confidence := emotion_result.confidence,
    sentiment_score := sentiment_score,
    sentiment_polarity := sentiment_result.polarity,
    risk_level := risk_level,
    risk_score := risk_result.score,
    risk_factors := risk_result.factors,
    ai_response := ai_response,
    alert := alert }

/-! ## Helper lemmas -/

theorem containsSub_iff (p s : List Char) :
    containsSub p s = true ↔ p <:+: s := by
  induction s with
  | nil =>
    simp [containsSub, List.isPrefixOf_iff_prefix, List.prefix_nil, List.infix_nil]
  | cons c cs ih =>
    simp only [containsSub, Bool.or_eq_true, List.isPrefixOf_iff_prefix, ih]
    constructor
    · rintro (h | h)
      · exact h.isInfix
      · exact h.trans (List.suffix_cons c cs).isInfix
    · intro h
      rcases h with ⟨t, u, htu⟩
      cases t with
      | nil =>
        left
        exact ⟨u, by simpa using htu⟩
      | cons x xs =>
        right
        simp only [List.cons_append] at htu
        rcases List.cons_eq_cons.mp htu with ⟨-, h2⟩
        exact ⟨xs, u, h2⟩

theorem mem_of_containsSub {p s : List Char} (h : containsSub p s = true) :
    ∀ c ∈ p, c ∈ s := by
  rw [containsSub_iff] at h
  exact fun c hc => h.subset hc

theorem containsSub_trans {p q s : List Char}
    (h1 : containsSub p q = true) (h2 : containsSub q s = true) :
    containsSub p s = true := by
  rw [containsSub_iff] at h1 h2 ⊢
  exact h1.trans h2

/-! ### `scanMax` lemmas -/

theorem scanMax_cons {α : Type} (cond : α → Bool) (fx : α → String)
    (v : ℤ) (init : List String × ℤ) (x : α) (xs : List α) :
    scanMax cond fx v init (x :: xs) =
      scanMax cond fx v
        (if cond x then (init.1 ++ [fx x], max init.2 v) else init) xs := rfl

theorem scanMax_snd_mono {α : Type} (cond : α → Bool) (fx : α → String)
    (v : ℤ) (init : List String × ℤ) (l : List α) :
    init.2 ≤ (scanMax cond fx v init l).2 := by
  induction l generalizing init with
  | nil => exact le_refl _
  | cons x xs ih =>
    rw [scanMax_cons]
    by_cases h : cond x
    · rw [if_pos h]
      exact le_trans (le_max_left _ _) (ih _)
    · rw [if_neg h]
      exact ih _

theorem scanMax_snd_le {α : Type} (cond : α → Bool) (fx : α → String)
    (v : ℤ) (init : List String × ℤ) (l : List α) :
    (scanMax cond fx v init l).2 ≤ max init.2 v := by
  induction l generalizing init with
  | nil => exact le_max_left _ _
  | cons x xs ih =>
    rw [scanMax_cons]
    by_cases h : cond x
    · rw [if_pos h]
      exact le_trans (ih _) (by simp [max_assoc])
    · rw [if_neg h]
      exact ih _

theorem scanMax_no_match {α : Type} {cond : α → Bool} (fx : α → String)
    (v : ℤ) (init : List String × ℤ) {l : List α}
    (h : ∀ x ∈ l, cond x = false) :
    scanMax cond fx v init l = init := by
  induction l generalizing init with
  | nil => rfl
  | cons x xs ih =>
    rw [scanMax_cons, if_neg (by simp [h x (List.mem_cons_self ..)])]
    exact ih _ (fun y hy => h y (List.mem_cons_of_mem _ hy))

theorem scanMax_ge_of_match {α : Type} {cond : α → Bool} (fx : α → String)
    (v : ℤ) (init : List String × ℤ) {l : List α} {x : α}
    (hx : x ∈ l) (hc : cond x = true) :
    v ≤ (scanMax cond fx v init l).2 := by
  induction l generalizing init with
  | nil => cases hx
  | cons y ys ih =>
    rw [scanMax_cons]
    rcases List.mem_cons.mp hx with rfl | hmem
    · rw [if_pos hc]
      exact le_trans (le_max_right init.2 v) (scanMax_snd_mono ..)
    · by_cases h : cond y
      · rw [if_pos h]; exact ih _ hmem
      · rw [if_neg h]; exact ih _ hmem

theorem scanMax_fst_prefix {α : Type} (cond : α → Bool) (fx : α → String)
    (v : ℤ) (init : List String × ℤ) (l : List α) :
    init.1 <+: (scanMax cond fx v init l).1 := by
  induction l generalizing init with
  | nil => exact List.prefix_refl _
  | cons x xs ih =>
    rw [scanMax_cons]
    by_cases h : cond x
    · rw [if_pos h]
      exact (List.prefix_append init.1 [fx x]).trans
        (ih (init.1 ++ [fx x], max init.2 v))
    · rw [if_neg h]
      exact ih _

theorem scanMax_of_fst_nil {α : Type} {cond : α → Bool} {fx : α → String}
    {v : ℤ} {init : List String × ℤ} {l : List α}
    (h : (scanMax cond fx v init l).1 = []) :
    scanMax cond fx v init l = init := by
  induction l generalizing init with
  | nil => rfl
  | cons x xs ih =>
    rw [scanMax_cons] at h ⊢
    by_cases hc : cond x
    · exfalso
      rw [if_pos hc] at h
      have hpfx := scanMax_fst_prefix cond fx v (init.1 ++ [fx x], max init.2 v) xs
      rw [h] at hpfx
      simpa using List.prefix_nil.mp hpfx
    · rw [if_neg hc] at h ⊢
      exact ih h

/-! ### Stage bounds for `detect_risk` -/

theorem lowScan_snd_mono (tl : List Char) (acc : List String × ℤ) :
    acc.2 ≤ (lowScan tl acc).2 := by
  unfold lowScan
  split
  · dsimp only
    split
    · exact le_max_left _ _
    · exact le_refl _
  · exact le_refl _

theorem lowScan_snd_le (tl : List Char) (acc : List String × ℤ) :
    (lowScan tl acc).2 ≤ max acc.2 25 := by
  unfold lowScan
  split
  · dsimp only
    split
    · exact le_refl _
    · exact le_max_left _ _
  · exact le_max_left _ _

theorem lowScan_of_fst_nil {tl : List Char} {acc : List String × ℤ}
    (h : (lowScan tl acc).1 = []) : lowScan tl acc = acc := by
  by_cases hc : (LOW_RISK_PATTERNS.any (fun p => rxSearch p tl)) = true
  · exfalso
    unfold lowScan at h
    rw [if_pos hc] at h
    simp at h
  · unfold lowScan
    rw [if_neg hc]

theorem lookupAdj_le (key : String) : lookupAdj key ≤ 15 := by
  unfold lookupAdj
  cases h : emotion_adjustments.find? (fun p => p.1 = key) with
  | none => simp
  | some p =>
    have hmem := List.mem_of_find?_eq_some h
    fin_cases hmem <;> simp

theorem neg_ten_le_lookupAdj (key : String) : -10 ≤ lookupAdj key := by
  unfold lookupAdj
  cases h : emotion_adjustments.find? (fun p => p.1 = key) with
  | none => simp
  | some p =>
    have hmem := List.mem_of_find?_eq_some h
    fin_cases hmem <;> simp

theorem emotionStage_none (acc : List String × ℤ) :
    emotionStage none acc = acc := rfl

theorem emotionStage_some (e : String) (acc : List String × ℤ) :
    emotionStage (some e) acc =
      if e = "" then acc
      else if lookupAdj (String.mk (lowerChars e.data)) ≠ 0 then
        (if lookupAdj (String.mk (lowerChars e.data)) > 0 then
           acc.1 ++ ["Negative emotion detected: " ++ e] else acc.1,
         acc.2 + lookupAdj (String.mk (lowerChars e.data)))
      else acc := rfl

theorem emotionStage_snd_le (e : Option String) (acc : List String × ℤ) :
    (emotionStage e acc).2 ≤ acc.2 + 15 := by
  cases e with
  | none => rw [emotionStage_none]; omega
  | some s =>
    rw [emotionStage_some]
    have h15 := lookupAdj_le (String.mk (lowerChars s.data))
    by_cases h0 : s = ""
    · rw [if_pos h0]; omega
    · rw [if_neg h0]
      by_cases hz : lookupAdj (String.mk (lowerChars s.data)) ≠ 0
      · rw [if_pos hz]; dsimp only; omega
      · rw [if_neg hz]; omega

theorem emotionStage_snd_ge (e : Option String) (acc : List String × ℤ) :
    acc.2 - 10 ≤ (emotionStage e acc).2 := by
  cases e with
  | none => rw [emotionStage_none]; omega
  | some s =>
    rw [emotionStage_some]
    have h10 := neg_ten_le_lookupAdj (String.mk (lowerChars s.data))
    by_cases h0 : s = ""
    · rw [if_pos h0]; omega
    · rw [if_neg h0]
      by_cases hz : lookupAdj (String.mk (lowerChars s.data)) ≠ 0
      · rw [if_pos hz]; dsimp only; omega
      · rw [if_neg hz]; omega

theorem emotionStage_of_fst_nil {e : Option String} {acc : List String × ℤ}
    (h : (emotionStage e acc).1 = []) :
    acc.1 = [] ∧ (emotionStage e acc).2 ≤ acc.2 := by
  cases e with
  | none => rw [emotionStage_none] at h ⊢; exact ⟨h, le_refl _⟩
  | some s =>
    rw [emotionStage_some] at h ⊢
    by_cases h0 : s = ""
    · rw [if_pos h0] at h ⊢; exact ⟨h, le_refl _⟩
    · rw [if_neg h0] at h ⊢
      by_cases hz : lookupAdj (String.mk (lowerChars s.data)) ≠ 0
      · rw [if_pos hz] at h ⊢
        by_cases hp : lookupAdj (String.mk (lowerChars s.data)) > 0
        · rw [if_pos hp] at h; simp at h
        · rw [if_neg hp] at h
          dsimp only at h ⊢
          exact ⟨h, by omega⟩
      · rw [if_neg hz] at h ⊢; exact ⟨h, le_refl _⟩

theorem sentimentStage_none (acc : List String × ℤ) :
    sentimentStage none acc = acc := rfl

theorem sentimentStage_some (q : ℚ) (acc : List String × ℤ) :
    sentimentStage (some q) acc =
      if q < -(6/10 : ℚ) then (acc.1 ++ ["Very negative sentiment"], acc.2 + 10)
      else if q < -(3/10 : ℚ) then (acc.1 ++ ["Negative sentiment"], acc.2 + 5)
      else acc := rfl

theorem sentimentStage_snd_mono (s : Option ℚ) (acc : List String × ℤ) :
    acc.2 ≤ (sentimentStage s acc).2 := by
  cases s with
  | none => rw [sentimentStage_none]
  | some q =>
    rw [sentimentStage_some]
    by_cases h1 : q < -(6/10 : ℚ)
    · rw [if_pos h1]; dsimp only; omega
    · rw [if_neg h1]
      by_cases h2 : q < -(3/10 : ℚ)
      · rw [if_pos h2]; dsimp only; omega
      · rw [if_neg h2]

theorem sentimentStage_snd_le (s : Option ℚ) (acc : List String × ℤ) :
    (sentimentStage s acc).2 ≤ acc.2 + 10 := by
  cases s with
  | none => rw [sentimentStage_none]; omega
  | some q =>
    rw [sentimentStage_some]
    by_cases h1 : q < -(6/10 : ℚ)
    · rw [if_pos h1]
    · rw [if_neg h1]
      by_cases h2 : q < -(3/10 : ℚ)
      · rw [if_pos h2]; dsimp only; omega
      · rw [if_neg h2]; omega

theorem sentimentStage_of_fst_nil {s : Option ℚ} {acc : List String × ℤ}
    (h : (sentimentStage s acc).1 = []) : sentimentStage s acc = acc := by
  cases s with
  | none => rw [sentimentStage_none]
  | some q =>
    rw [sentimentStage_some] at h ⊢
    by_cases h1 : q < -(6/10 : ℚ)
    · rw [if_pos h1] at h; simp at h
    · rw [if_neg h1] at h ⊢
      by_cases h2 : q < -(3/10 : ℚ)
      · rw [if_pos h2] at h; simp at h
      · rw [if_neg h2]

/-! ### `levelOf` characterisations -/

theorem levelOf_eq_HIGH {s : ℤ} : levelOf s = "HIGH" ↔ 70 ≤ s := by
  unfold levelOf
  by_cases h : s ≥ 70
  · rw [if_pos h]
    exact ⟨fun _ => h, fun _ => rfl⟩
  · rw [if_neg h]
    constructor
    · intro hc
      by_cases h2 : s ≥ 35
      · rw [if_pos h2] at hc; exact absurd hc (by decide)
      · rw [if_neg h2] at hc; exact absurd hc (by decide)
    · intro hc; exact absurd hc h

theorem levelOf_eq_MEDIUM {s : ℤ} : levelOf s = "MEDIUM" ↔ 35 ≤ s ∧ s < 70 := by
  unfold levelOf
  by_cases h : s ≥ 70
  · rw [if_pos h]
    constructor
    · intro hc; exact absurd hc (by decide)
    · intro hc; omega
  · rw [if_neg h]
    by_cases h2 : s ≥ 35
    · rw [if_pos h2]
      exact ⟨fun _ => ⟨h2, by omega⟩, fun _ => rfl⟩
    · rw [if_neg h2]
      constructor
      · intro hc; exact absurd hc (by decide)
      · intro hc; exact absurd hc.1 h2

theorem levelOf_eq_LOW {s : ℤ} : levelOf s = "LOW" ↔ s < 35 := by
  unfold levelOf
  by_cases h : s ≥ 70
  · rw [if_pos h]
    constructor
    · intro hc; exact absurd hc (by decide)
    · intro hc; omega
  · rw [if_neg h]
    by_cases h2 : s ≥ 35
    · rw [if_pos h2]
      constructor
      · intro hc; exact absurd hc (by decide)
      · intro hc; omega
    · rw [if_neg h2]
      exact ⟨fun _ => by omega, fun _ => rfl⟩

/-! ### Deduplication -/

theorem dedupKeepFirst_eq_nil {seen : List String} {l : List String}
    (h : dedupKeepFirst seen l = []) (hs : seen = []) : l = [] := by
  cases l with
  | nil => rfl
  | cons x xs =>
    subst hs
    simp [dedupKeepFirst] at h

/-! ### Core facts about `detect_risk` -/

theorem high_keywords_ne_empty : ∀ kw ∈ HIGH_RISK_KEYWORDS, kw ≠ "" := by decide

theorem text_ne_empty_of_keyword {text : String}
    (h : ∃ kw ∈ HIGH_RISK_KEYWORDS,
      containsSub kw.data (lowerChars text.data) = true) :
    text ≠ "" := by
  rintro rfl
  rcases h with ⟨kw, hkw, hc⟩
  rw [containsSub_iff] at hc
  have hd : kw.data = [] := List.eq_nil_of_infix_nil hc
  exact high_keywords_ne_empty kw hkw (by cases kw with | mk d => rw [show ("" : String) = ⟨[]⟩ from rfl]; simp_all)

/-- Any high-risk keyword occurring in the lowercased text forces a final
score of at least 75 (85 from the keyword stage, minus at most 10 for a
`joy` emotion adjustment) and hence level HIGH. -/
theorem detect_risk_of_keyword (text : String) (emotion : Option String)
    (sentiment : Option ℚ)
    (h : ∃ kw ∈ HIGH_RISK_KEYWORDS,
      containsSub kw.data (lowerChars text.data) = true) :
    75 ≤ (detect_risk text emotion sentiment).score ∧
      (detect_risk text emotion sentiment).level = "HIGH" := by
  have htext : text ≠ "" := text_ne_empty_of_keyword h
  unfold detect_risk
  rw [if_neg htext]
  dsimp only
  rcases h with ⟨kw, hkw, hc⟩
  have h85 : (85 : ℤ) ≤ (highScan (lowerChars text.data)).2 :=
    scanMax_ge_of_match _ _ _ hkw hc
  have h2 : (highScan (lowerChars text.data)).2 ≤
      (mediumScan (lowerChars text.data) (highScan (lowerChars text.data))).2 :=
    scanMax_snd_mono ..
  have h3 := lowScan_snd_mono (lowerChars text.data)
    (mediumScan (lowerChars text.data) (highScan (lowerChars text.data)))
  have h4 := emotionStage_snd_ge emotion
    (lowScan (lowerChars text.data)
      (mediumScan (lowerChars text.data) (highScan (lowerChars text.data))))
  have h5 := sentimentStage_snd_mono sentiment
    (emotionStage emotion (lowScan (lowerChars text.data)
      (mediumScan (lowerChars text.data) (highScan (lowerChars text.data)))))
  have hfin : (75 : ℤ) ≤ max 0 (min 100
      (sentimentStage sentiment (emotionStage emotion (lowScan (lowerChars text.data)
        (mediumScan (lowerChars text.data) (highScan (lowerChars text.data)))))).2) :=
    le_max_of_le_right (le_min (by norm_num) (by omega))
  exact ⟨hfin, levelOf_eq_HIGH.mpr (by omega)⟩

/-- With no high-risk keyword and no medium-risk pattern in the text, the
final score is at most 50 (25 from the low-risk stage, +15 emotion,
+10 sentiment). -/
theorem detect_risk_low_only (text : String) (emotion : Option String)
    (sentiment : Option ℚ)
    (hh : ∀ kw ∈ HIGH_RISK_KEYWORDS,
      containsSub kw.data (lowerChars text.data) = false)
    (hm : ∀ p ∈ MEDIUM_RISK_PATTERNS, rxSearch p (lowerChars text.data) = false) :
    (detect_risk text emotion sentiment).score ≤ 50 := by
  by_cases htext : text = ""
  · subst htext
    norm_num [detect_risk]
  · unfold detect_risk
    rw [if_neg htext]
    dsimp only
    have ha1 : highScan (lowerChars text.data) = ([], 0) :=
      scanMax_no_match _ _ _ hh
    have ha2 : mediumScan (lowerChars text.data) ([], 0) = ([], 0) :=
      scanMax_no_match _ _ _ hm
    rw [ha1, ha2]
    have h3 : (lowScan (lowerChars text.data) ([], 0)).2 ≤ 25 := by
      have := lowScan_snd_le (lowerChars text.data) ([], 0)
      simpa using this
    have h4 := emotionStage_snd_le emotion (lowScan (lowerChars text.data) ([], 0))
    have h5 := sentimentStage_snd_le sentiment
      (emotionStage emotion (lowScan (lowerChars text.data) ([], 0)))
    exact max_le (by norm_num) (le_trans (min_le_right _ _) (by omega))

/-- The returned level is always the thresholding of the returned score,
and the score is clamped to [0, 100]. -/
theorem detect_risk_shape (text : String) (emotion : Option String)
    (sentiment : Option ℚ) :
    (detect_risk text emotion sentiment).level =
        levelOf (detect_risk text emotion sentiment).score ∧
      0 ≤ (detect_risk text emotion sentiment).score ∧
      (detect_risk text emotion sentiment).score ≤ 100 := by
  unfold detect_risk
  by_cases htext : text = ""
  · rw [if_pos htext]
    exact ⟨by decide, by decide, by decide⟩
  · rw [if_neg htext]
    dsimp only
    exact ⟨rfl, le_max_left 0 _, max_le (by norm_num) (min_le_left _ _)⟩

/-- A score that survives to 35 or above can only come from a stage that
also appended a factor, so the factors list is non-empty. -/
theorem detect_risk_factors_ne_nil (text : String) (emotion : Option String)
    (sentiment : Option ℚ)
    (h : 35 ≤ (detect_risk text emotion sentiment).score) :
    (detect_risk text emotion sentiment).factors ≠ [] := by
  by_cases htext : text = ""
  · exfalso
    rw [htext] at h
    norm_num [detect_risk] at h
  · unfold detect_risk at h ⊢
    rw [if_neg htext] at h ⊢
    dsimp only at h ⊢
    intro hnil
    have h5 := dedupKeepFirst_eq_nil hnil rfl
    have e5 := sentimentStage_of_fst_nil h5
    rw [e5] at h5
    have e4 := emotionStage_of_fst_nil h5
    have e3 := lowScan_of_fst_nil e4.1
    rw [e3] at e4
    have e2 : mediumScan (lowerChars text.data) (highScan (lowerChars text.data)) =
        highScan (lowerChars text.data) := scanMax_of_fst_nil e4.1
    have h1nil : (highScan (lowerChars text.data)).1 = [] := by
      rw [e2] at e4; exact e4.1
    have e1 : highScan (lowerChars text.data) = ([], 0) :=
      scanMax_of_fst_nil h1nil
    have hb : (sentimentStage sentiment (emotionStage emotion
        (lowScan (lowerChars text.data) (mediumScan (lowerChars text.data)
          (highScan (lowerChars text.data)))))).2 ≤ 0 := by
      rw [e5, e3, e2, e1]
      have h42 := e4.2
      rw [e2, e1] at h42
      simpa using h42
    have hscore : max 0 (min 100 (sentimentStage sentiment (emotionStage emotion
        (lowScan (lowerChars text.data) (mediumScan (lowerChars text.data)
          (highScan (lowerChars text.data)))))).2) ≤ 0 :=
      max_le le_rfl (le_trans (min_le_right _ _) hb)
    omega

/-! ### Whitespace lemmas -/

theorem isWs_toLower {c : Char} (h : isWs c = true) : isWs c.toLower = true := by
  simp only [isWs, Bool.or_eq_true, decide_eq_true_eq] at h
  rcases h with ((((h | h) | h) | h) | h) | h <;> subst h <;> decide

theorem lowerChars_allWs {l : List Char} (h : ∀ c ∈ l, isWs c = true) :
    ∀ c ∈ lowerChars l, isWs c = true := by
  intro c hc
  rcases List.mem_map.mp hc with ⟨d, hd, rfl⟩
  exact isWs_toLower (h d hd)

theorem pyStrip_nil_of_allWs {l : List Char} (h : ∀ c ∈ l, isWs c = true) :
    pyStrip l = [] := by
  unfold pyStrip
  have h1 : l.dropWhile isWs = [] := List.dropWhile_eq_nil_iff.mpr h
  rw [h1]
  rfl

theorem allWs_of_pyStrip_nil {l : List Char} (h : pyStrip l = []) :
    ∀ c ∈ l, isWs c = true := by
  unfold pyStrip at h
  rw [List.reverse_eq_nil_iff] at h
  have h2 : ∀ c ∈ (l.dropWhile isWs).reverse, isWs c = true :=
    List.dropWhile_eq_nil_iff.mp h
  have h3 : ∀ c ∈ l.dropWhile isWs, isWs c = true := by
    intro c hc
    exact h2 c (List.mem_reverse.mpr hc)
  intro c hc
  rw [← List.takeWhile_append_dropWhile (p := isWs) (l := l)] at hc
  rcases List.mem_append.mp hc with hc | hc
  · exact List.mem_takeWhile_imp hc
  · exact h3 c hc

/-! ### The regex engine cannot match inside pure whitespace -/

theorem suffix_of_mem_wsSuffixes {s t : List Char} (h : t ∈ wsSuffixes s) :
    t <:+ s := by
  induction s with
  | nil => cases h
  | cons c cs ih =>
    unfold wsSuffixes at h
    by_cases hw : isWs c = true
    · rw [if_pos hw] at h
      rcases List.mem_cons.mp h with rfl | h
      · exact List.suffix_cons c t
      · exact (ih h).trans (List.suffix_cons c cs)
    · rw [if_neg hw] at h
      cases h

theorem suffix_of_mem_matchRx {r : Rx} {s t : List Char}
    (h : t ∈ matchRx r s) : t <:+ s := by
  induction r generalizing s t with
  | fail => cases h
  | lit p =>
    unfold matchRx at h
    by_cases hp : p.isPrefixOf s = true
    · rw [if_pos hp] at h
      rcases List.mem_cons.mp h with rfl | h
      · exact List.drop_suffix _ _
      · cases h
    · rw [if_neg hp] at h
      cases h
  | ws1 => exact suffix_of_mem_wsSuffixes h
  | ws0 =>
    rcases List.mem_cons.mp h with rfl | h
    · exact List.suffix_refl _
    · exact suffix_of_mem_wsSuffixes h
  | cat r1 r2 ih1 ih2 =>
    unfold matchRx at h
    rcases List.mem_flatMap.mp h with ⟨u, hu, ht⟩
    exact (ih2 ht).trans (ih1 hu)
  | alt r1 r2 ih1 ih2 =>
    unfold matchRx at h
    rcases List.mem_append.mp h with h | h
    · exact ih1 h
    · exact ih2 h
  | opt r ih =>
    rcases List.mem_cons.mp h with rfl | h
    · exact List.suffix_refl _
    · exact ih h

theorem nonws_of_mem_matchRx {r : Rx} {s t : List Char}
    (h : t ∈ matchRx r s) (hr : hasNonWsLit r = true) :
    ∃ c ∈ s, isWs c = false := by
  induction r generalizing s t with
  | fail => cases h
  | lit p =>
    unfold matchRx at h
    by_cases hp : p.isPrefixOf s = true
    · simp only [hasNonWsLit, List.any_eq_true, Bool.not_eq_true'] at hr
      rcases hr with ⟨c, hc, hcw⟩
      have hpfx := List.isPrefixOf_iff_prefix.mp hp
      exact ⟨c, hpfx.subset hc, hcw⟩
    · rw [if_neg hp] at h
      cases h
  | ws1 => cases hr
  | ws0 => cases hr
  | cat r1 r2 ih1 ih2 =>
    unfold matchRx at h
    rcases List.mem_flatMap.mp h with ⟨u, hu, ht⟩
    rcases Bool.or_eq_true .. |>.mp hr with hr1 | hr2
    · exact ih1 hu hr1
    · rcases ih2 ht hr2 with ⟨c, hc, hcw⟩
      exact ⟨c, (suffix_of_mem_matchRx hu).subset hc, hcw⟩
  | alt r1 r2 ih1 ih2 =>
    unfold matchRx at h
    rcases List.mem_append.mp h with h | h
    · exact ih1 h (Bool.and_eq_true .. |>.mp hr).1
    · exact ih2 h (Bool.and_eq_true .. |>.mp hr).2
  | opt r ih => cases hr

theorem nonws_of_rxSearch {r : Rx} {s : List Char}
    (h : rxSearch r s = true) (hr : hasNonWsLit r = true) :
    ∃ c ∈ s, isWs c = false := by
  induction s with
  | nil =>
    unfold rxSearch at h
    rw [Bool.not_eq_eq_eq_not] at h
    rcases List.exists_mem_of_ne_nil _ (by simpa using h) with ⟨t, ht⟩
    exact nonws_of_mem_matchRx ht hr
  | cons c cs ih =>
    unfold rxSearch at h
    rcases Bool.or_eq_true .. |>.mp h with h | h
    · rw [Bool.not_eq_eq_eq_not] at h
      rcases List.exists_mem_of_ne_nil _ (by simpa using h) with ⟨t, ht⟩
      exact nonws_of_mem_matchRx ht hr
    · rcases ih h with ⟨d, hd, hdw⟩
      exact ⟨d, List.mem_cons_of_mem c hd, hdw⟩

/-! ### Decidable facts about the concrete keyword lists and patterns -/

theorem high_keywords_nonws :
    ∀ kw ∈ HIGH_RISK_KEYWORDS, ∃ c ∈ kw.data, isWs c = false := by decide

theorem medium_patterns_nonws :
    ∀ p ∈ MEDIUM_RISK_PATTERNS, hasNonWsLit p = true := by decide

theorem low_patterns_nonws :
    ∀ p ∈ LOW_RISK_PATTERNS, hasNonWsLit p = true := by decide

/-- Every crisis indicator of `check_for_crisis` contains some
`HIGH_RISK_KEYWORDS` entry as a substring (five are verbatim elements;
`"going to hurt myself"` contains `"hurt myself"`). -/
theorem crisis_contains_keyword :
    ∀ ind ∈ crisis_indicators, ∃ kw ∈ HIGH_RISK_KEYWORDS,
      containsSub kw.data ind.data = true := by decide

/-- On whitespace-only text no keyword and no pattern fires, so
`detect_risk` returns the LOW/0/[] default even though only the empty
string short-circuits. -/
theorem detect_risk_ws {text : String} (h : ∀ c ∈ text.data, isWs c = true) :
    detect_risk text none none = ⟨"LOW", 0, []⟩ := by
  by_cases htext : text = ""
  · subst htext; rfl
  · unfold detect_risk
    rw [if_neg htext]
    have htl := lowerChars_allWs h
    have hh : ∀ kw ∈ HIGH_RISK_KEYWORDS,
        containsSub kw.data (lowerChars text.data) = false := by
      intro kw hkw
      rw [Bool.eq_false_iff]
      intro hc
      rcases high_keywords_nonws kw hkw with ⟨c, hcmem, hcw⟩
      rw [htl c (mem_of_containsSub hc c hcmem)] at hcw
      cases hcw
    have hm : ∀ p ∈ MEDIUM_RISK_PATTERNS,
        rxSearch p (lowerChars text.data) = false := by
      intro p hp
      rw [Bool.eq_false_iff]
      intro hs
      rcases nonws_of_rxSearch hs (medium_patterns_nonws p hp) with ⟨c, hc, hcw⟩
      rw [htl c hc] at hcw
      cases hcw
    have hlow : (LOW_RISK_PATTERNS.any
        (fun p => rxSearch p (lowerChars text.data))) = false := by
      rw [List.any_eq_false]
      intro p hp
      intro hs
      rcases nonws_of_rxSearch hs (low_patterns_nonws p hp) with ⟨c, hc, hcw⟩
      rw [htl c hc] at hcw
      cases hcw
    have ha1 : highScan (lowerChars text.data) = ([], 0) :=
      scanMax_no_match _ _ _ hh
    have ha2 : mediumScan (lowerChars text.data) ([], 0) = ([], 0) :=
      scanMax_no_match _ _ _ hm
    have ha3 : lowScan (lowerChars text.data) ([], 0) = ([], 0) := by
      unfold lowScan
      rw [if_neg (by simp [hlow])]
    dsimp only
    rw [ha1, ha2, ha3, emotionStage_none, sentimentStage_none]
    decide

/-! ### `generate_response` helpers -/

theorem generate_mock_response_ne (m : String) (e rl : Option String) :
    generate_mock_response m e rl ≠ "" := by
  unfold generate_mock_response
  dsimp only
  repeat' split
  all_goals decide

theorem pyStrip_ne_nil {l : List Char} (h : ∃ c ∈ l, isWs c = false) :
    pyStrip l ≠ [] := by
  intro hnil
  rcases h with ⟨c, hc, hcw⟩
  rw [allWs_of_pyStrip_nil hnil c hc] at hcw
  cases hcw

/-! ## Claims -/

/-- C1 fails as stated: the text `"suicide"` contains the high-risk keyword
`"suicide"`, yet with emotion `"joy"` the adjustment of -10 brings the
score to 75, below the claimed 85 (the level is still HIGH). -/
theorem claim_C1_counterexample :
    ("suicide" ∈ HIGH_RISK_KEYWORDS ∧
      containsSub "suicide".data (lowerChars ("suicide" : String).data) = true) ∧
    (detect_risk "suicide" (some "joy") none).score < 85 := by decide

/-- C1 (amended): for every text containing a high-risk phrase in its
lowercasing, and all emotion/sentiment inputs, `detect_risk` returns level
HIGH and a score ≥ 75 (it is ≥ 85 unless the emotion is `joy`, whose
adjustment is -10). -/
theorem claim_C1 (text : String) (emotion : Option String) (sentiment : Option ℚ)
    (h : ∃ kw ∈ HIGH_RISK_KEYWORDS,
      containsSub kw.data (lowerChars text.data) = true) :
    (detect_risk text emotion sentiment).level = "HIGH" ∧
      75 ≤ (detect_risk text emotion sentiment).score := by
  have hk := detect_risk_of_keyword text emotion sentiment h
  exact ⟨hk.2, hk.1⟩

theorem claim_C1_witness :
    (∃ kw ∈ HIGH_RISK_KEYWORDS,
      containsSub kw.data (lowerChars ("I want to die" : String).data) = true) ∧
    (detect_risk "I want to die" (some "joy") (some (-1))).level = "HIGH" ∧
      75 ≤ (detect_risk "I want to die" (some "joy") (some (-1))).score := by
  have h : ∃ kw ∈ HIGH_RISK_KEYWORDS,
      containsSub kw.data (lowerChars ("I want to die" : String).data) = true := by
    decide
  exact ⟨h, claim_C1 "I want to die" (some "joy") (some (-1)) h⟩

/-- C2: for all inputs the score lies in [0,100] and the level is exactly
the thresholding of the score (HIGH ⟺ ≥ 70, MEDIUM ⟺ 35 ≤ s < 70,
LOW ⟺ < 35). -/
theorem claim_C2 (text : String) (emotion : Option String) (sentiment : Option ℚ) :
    0 ≤ (detect_risk text emotion sentiment).score ∧
    (detect_risk text emotion sentiment).score ≤ 100 ∧
    ((detect_risk text emotion sentiment).level = "HIGH" ↔
      70 ≤ (detect_risk text emotion sentiment).score) ∧
    ((detect_risk text emotion sentiment).level = "MEDIUM" ↔
      35 ≤ (detect_risk text emotion sentiment).score ∧
        (detect_risk text emotion sentiment).score < 70) ∧
    ((detect_risk text emotion sentiment).level = "LOW" ↔
      (detect_risk text emotion sentiment).score < 35) := by
  obtain ⟨hl, h0, h100⟩ := detect_risk_shape text emotion sentiment
  refine ⟨h0, h100, ?_, ?_, ?_⟩ <;> rw [hl]
  · exact levelOf_eq_HIGH
  · exact levelOf_eq_MEDIUM
  · exact levelOf_eq_LOW

/-- C3 fails as stated: with the seven scores 5,5,5,5,5,0,0 (most recent
first) the recent average (5) is exactly 5 points above the prior average
(0), yet the code requires a strict `> older + 5` and reports "stable",
not "worsening". -/
theorem claim_C3_counterexample :
    (([(5 : ℚ), 5, 5, 5, 5].sum / 5) ≥ ([(0 : ℚ), 0].sum / 2) + 5 ∧
    computeTrend [5, 5, 5, 5, 5, 0, 0] = "stable") := by
  constructor
  · norm_num
  · unfold computeTrend
    rw [if_pos (by norm_num)]
    dsimp only
    simp only [List.take_succ_cons, List.take_zero, List.drop_succ_cons,
      List.drop_zero, List.sum_cons, List.sum_nil, List.length_cons,
      List.length_nil]
    norm_num

/-- C3 (amended): for seven scores, the trend is "worsening" when the
average of the five most recent is STRICTLY more than 5 points above the
average of the prior two; with fewer than five scores the trend is
"insufficient_data". -/
theorem claim_C3 :
    (∀ a b c d e f g : ℚ,
      (a + b + c + d + e) / 5 > (f + g) / 2 + 5 →
      computeTrend [a, b, c, d, e, f, g] = "worsening") ∧
    (∀ scores : List ℚ, scores.length < 5 →
      computeTrend scores = "insufficient_data") := by
  constructor
  · intro a b c d e f g h
    unfold computeTrend
    rw [if_pos (by norm_num)]
    dsimp only
    simp only [List.take_succ_cons, List.take_zero, List.drop_succ_cons,
      List.drop_zero, List.sum_cons, List.sum_nil, List.length_cons,
      List.length_nil]
    norm_num
    have h1 : ¬ ((a + (b + (c + (d + e)))) / 5 < (f + g) / 2 - 5) := by
      intro hcon
      linarith
    have h2 : (f + g) / 2 + 5 < (a + (b + (c + (d + e)))) / 5 := by linarith
    rw [if_neg h1, if_pos h2]
  · intro scores hlen
    unfold computeTrend
    rw [if_neg (by omega)]

theorem claim_C3_witness :
    computeTrend [6, 5, 5, 5, 5, 0, 0] = "worsening" ∧
    computeTrend [50, 50] = "insufficient_data" :=
  ⟨claim_C3.1 6 5 5 5 5 0 0 (by norm_num),
   claim_C3.2 [50, 50] (by norm_num)⟩

/-- C4 fails as stated: `"going to hurt myself"` is a crisis indicator of
`check_for_crisis` but is not an element of `HIGH_RISK_KEYWORDS` (which
only has `"hurt myself"`). -/
theorem claim_C4_counterexample :
    "going to hurt myself" ∈ crisis_indicators ∧
    "going to hurt myself" ∉ HIGH_RISK_KEYWORDS := by decide

/-- C4 (amended): every crisis indicator contains some element of
`HIGH_RISK_KEYWORDS` as a substring (all but `"going to hurt myself"` are
verbatim elements). -/
theorem claim_C4 (ind : String) (h : ind ∈ crisis_indicators) :
    ∃ kw ∈ HIGH_RISK_KEYWORDS, containsSub kw.data ind.data = true :=
  crisis_contains_keyword ind h

theorem claim_C4_witness :
    ∃ kw ∈ HIGH_RISK_KEYWORDS,
      containsSub kw.data ("going to hurt myself" : String).data = true :=
  claim_C4 "going to hurt myself" (by decide)

/-- C5: on empty or whitespace-only text, for every backend state,
`classify_emotion` returns neutral/0.0, `analyze_sentiment` returns
0.0/neutral, and `detect_risk` (no emotion/sentiment supplied) returns
LOW/0.0/[] — all three are total functions, so no exception can arise. -/
theorem claim_C5 (text : String) (h : ∀ c ∈ text.data, isWs c = true) :
    (∀ backend : Option (String × ℚ),
      classify_emotion backend text = ⟨"neutral", 0⟩) ∧
    (∀ backend : Option (String × ℚ),
      analyze_sentiment backend text = ⟨0, "neutral"⟩) ∧
    detect_risk text none none = ⟨"LOW", 0, []⟩ := by
  have hstrip : pyStrip text.data = [] := pyStrip_nil_of_allWs h
  refine ⟨fun backend => ?_, fun backend => ?_, detect_risk_ws h⟩
  · unfold classify_emotion
    rw [if_pos (by simp [hstrip])]
  · unfold analyze_sentiment
    rw [if_pos (by simp [hstrip])]

theorem claim_C5_witness :
    (∀ c ∈ ("  " : String).data, isWs c = true) ∧
    classify_emotion none "  " = ⟨"neutral", 0⟩ ∧
    analyze_sentiment none "  " = ⟨0, "neutral"⟩ ∧
    detect_risk "  " none none = ⟨"LOW", 0, []⟩ := by
  have h : ∀ c ∈ ("  " : String).data, isWs c = true := by decide
  obtain ⟨h1, h2, h3⟩ := claim_C5 "  " h
  exact ⟨h, h1 none, h2 none, h3⟩

/-- C6: a text matching only a low-risk pattern (no high-risk keyword, no
medium-risk pattern) scores at most 50, while a text containing a
high-risk keyword scores at least 75, whatever emotion/sentiment each call
receives — so the former is strictly below the latter. -/
theorem claim_C6 (t1 t2 : String) (e1 e2 : Option String) (s1 s2 : Option ℚ)
    (hh1 : ∀ kw ∈ HIGH_RISK_KEYWORDS,
      containsSub kw.data (lowerChars t1.data) = false)
    (hm1 : ∀ p ∈ MEDIUM_RISK_PATTERNS, rxSearch p (lowerChars t1.data) = false)
    (hl1 : ∃ p ∈ LOW_RISK_PATTERNS, rxSearch p (lowerChars t1.data) = true)
    (hh2 : ∃ kw ∈ HIGH_RISK_KEYWORDS,
      containsSub kw.data (lowerChars t2.data) = true) :
    (detect_risk t1 e1 s1).score < (detect_risk t2 e2 s2).score := by
  have h1 := detect_risk_low_only t1 e1 s1 hh1 hm1
  have h2 := (detect_risk_of_keyword t2 e2 s2 hh2).1
  omega

theorem claim_C6_witness :
    (detect_risk "I am stressed" (some "sadness") (some (-1))).score <
      (detect_risk "suicide" (some "joy") none).score := by
  apply claim_C6
  · decide
  · decide
  · decide
  · decide

/-- C7 fails as stated: on the backend path the code returns the model
reply stripped of surrounding whitespace, so a backend reply consisting of
whitespace only yields the empty string. -/
theorem claim_C7_counterexample :
    generate_response (some "  ") "hello" none none [] = "" := rfl

/-- C7 (amended): the deterministic fallback path always returns a
non-empty string; the backend path returns the backend content stripped,
which is non-empty whenever the content has a non-whitespace character. -/
theorem claim_C7 (message : String) (emotion risk_level : Option String)
    (history : List String) :
    generate_response none message emotion risk_level history ≠ "" ∧
    ∀ content : String, (∃ c ∈ content.data, isWs c = false) →
      generate_response (some content) message emotion risk_level history ≠ "" := by
  constructor
  · exact generate_mock_response_ne message emotion risk_level
  · intro content hc hempty
    have hnil : pyStrip content.data = [] := by
      have := congrArg String.data hempty
      simpa using this
    exact pyStrip_ne_nil hc hnil

theorem claim_C7_witness :
    generate_response none "hello" none none [] ≠ "" ∧
    generate_response (some "ok") "hello" none none [] ≠ "" := by
  have h := claim_C7 "hello" none none []
  exact ⟨h.1, h.2 "ok" (by decide)⟩

/-- C8: `send_message` creates an alert iff the risk level of the message
is HIGH, and any created alert carries risk level HIGH. -/
theorem claim_C8 (emoBackend sentBackend : Option (String × ℚ))
    (llmBackend : Option String) (user_id message : String) :
    ((send_message emoBackend sentBackend llmBackend user_id message).alert.isSome
      ↔ (send_message emoBackend sentBackend llmBackend user_id message).risk_level
          = "HIGH") ∧
    ∀ a, (send_message emoBackend sentBackend llmBackend user_id message).alert
        = some a → a.risk_level = "HIGH" := by
  unfold send_message
  dsimp only
  by_cases h : (detect_risk message
      (some (classify_emotion emoBackend message).emotion)
      (some (analyze_sentiment sentBackend message).score)).level = "HIGH"
  · rw [if_pos h]
    constructor
    · simp [h]
    · intro a ha
      rw [← Option.some_inj.mp ha]
      exact h
  · rw [if_neg h]
    constructor
    · simp [h]
    · intro a ha
      cases ha

theorem claim_C8_witness :
    (send_message none none none "u" "suicide").alert.isSome = true ∧
    (send_message none none none "u" "suicide").alert
      = some ⟨"u", "HIGH", "suicide"⟩ ∧
    (⟨"u", "HIGH", "suicide"⟩ : AlertInDB).risk_level = "HIGH" := by
  have hhigh : (detect_risk "suicide"
      (some (classify_emotion none "suicide").emotion)
      (some (analyze_sentiment none "suicide").score)).level = "HIGH" :=
    (detect_risk_of_keyword _ _ _ (by decide)).2
  have h := claim_C8 none none none "u" "suicide"
  have halert : (send_message none none none "u" "suicide").alert
      = some ⟨"u", "HIGH", "suicide"⟩ := by
    unfold send_message
    dsimp only
    rw [if_pos hhigh, hhigh]
  exact ⟨h.1.mpr hhigh, halert, h.2 _ halert⟩

/-- C9: whenever `check_for_crisis` fires, `detect_risk` reports HIGH for
the same text under every emotion/sentiment input: each crisis indicator
contains a high-risk keyword, so the keyword stage reaches 85 and no
adjustment can fall below the HIGH threshold of 70. -/
theorem claim_C9 (text : String) (emotion : Option String) (sentiment : Option ℚ)
    (h : check_for_crisis text = true) :
    (detect_risk text emotion sentiment).level = "HIGH" := by
  unfold check_for_crisis at h
  rw [List.any_eq_true] at h
  rcases h with ⟨ind, hind, hc⟩
  rcases crisis_contains_keyword ind hind with ⟨kw, hkw, hsub⟩
  exact (detect_risk_of_keyword text emotion sentiment
    ⟨kw, hkw, containsSub_trans hsub hc⟩).2

theorem claim_C9_witness :
    (detect_risk "There is suicide risk" (some "joy") (some 1)).level = "HIGH" :=
  claim_C9 "There is suicide risk" (some "joy") (some 1) (by decide)

/-- C10: a MEDIUM or HIGH level needs a score of at least 35, and every
positive score contribution appends a factor, so the factors list cannot
be empty. -/
theorem claim_C10 (text : String) (emotion : Option String) (sentiment : Option ℚ)
    (h : (detect_risk text emotion sentiment).level = "MEDIUM" ∨
         (detect_risk text emotion sentiment).level = "HIGH") :
    (detect_risk text emotion sentiment).factors ≠ [] := by
  apply detect_risk_factors_ne_nil
  obtain ⟨hl, h0, h100⟩ := detect_risk_shape text emotion sentiment
  rcases h with h | h <;> rw [hl] at h
  · exact (levelOf_eq_MEDIUM.mp h).1
  · have := levelOf_eq_HIGH.mp h
    omega

theorem claim_C10_witness :
    (detect_risk "I hate myself" none none).factors ≠ [] :=
  claim_C10 "I hate myself" none none (Or.inl (by decide))

end Helthtech
